import Mathlib

/-!
Verification development for the `metro-status-display` repository.

The Python sources are shallowly embedded as Lean definitions:
  * `metro.py`    — operating-hours predicate, time-period bucket, alert
    extraction, station-data assembly, and the emitting main loop
    (one loop iteration becomes the pure step function `mainStep`);
  * `display.py`  — the 5x7 bitmap font table, the pixel-write semantics of
    `draw_5x7_char` / `draw_5x7_text`, and `update_display`'s frame pipeline
    (PIL draw calls become explicit pixel-write events applied to a
    64x32 frame function; PIL silently clips out-of-bounds writes, which
    `setPixel` reproduces);
  * `run_display.py` — the supervisor loop becomes a small-step transition
    system `supStep` over `SupState`, with the environment (child deaths,
    responsiveness to SIGTERM) supplied as an oracle per step.

External collaborators (the HTTP API, the `json` stdlib codec between the
two processes, the LED-matrix driver, `strftime`) are opaque services: the
API response arrives as an already-parsed value or an error, `json.dumps`
/ `json.loads` are modelled as faithful transport of a JSON syntax tree,
and timestamp formatting is an abstract `Nat → String` parameter.
-/

namespace MetroStatus

/-! ### Time of day (`datetime.time`, compared lexicographically) -/

/-- A Python `datetime.time` value (hour, minute, second); microseconds are
never distinguished by this program. -/
structure PyTime where
  hour : Nat
  minute : Nat
  second : Nat
deriving DecidableEq, Repr

/-- Python `<=` on `datetime.time`: lexicographic on (hour, minute, second). -/
def PyTime.le (a b : PyTime) : Bool :=
  if a.hour ≠ b.hour then a.hour < b.hour
  else if a.minute ≠ b.minute then a.minute < b.minute
  else a.second ≤ b.second

/-- Python `<` on `datetime.time`: strict lexicographic comparison. -/
def PyTime.lt (a b : PyTime) : Bool :=
  if a.hour ≠ b.hour then a.hour < b.hour
  else if a.minute ≠ b.minute then a.minute < b.minute
  else a.second < b.second

/-! ### `metro.py`: operating hours and time periods -/

/-- `metro.py` `is_metro_operating`, with the ambient `datetime.now()`
made explicit: `t` is the current time of day and `isWeekday` is
`datetime.now().weekday() < 5`.  The start/end constants are the
`time(...)` literals of the source. -/
def isMetroOperating (t : PyTime) (isWeekday : Bool) : Bool :=
  let weekdayStart : PyTime := ⟨5, 30, 0⟩
  let weekdayEnd : PyTime := ⟨1, 0, 0⟩
  let weekendStart : PyTime := ⟨5, 30, 0⟩
  let weekendEnd : PyTime := ⟨1, 30, 0⟩
  if isWeekday then
    if weekdayStart.le t then true
    else if t.le weekdayEnd then true
    else false
  else
    if weekendStart.le t then true
    else if t.le weekendEnd then true
    else false

/-- The closing-boundary constant `is_metro_operating` uses for each day
type (`weekday_end` / `weekend_end` in the source). -/
def closingBoundary (isWeekday : Bool) : PyTime :=
  if isWeekday then ⟨1, 0, 0⟩ else ⟨1, 30, 0⟩

/-- `metro.py` `get_current_time_period`, with the current time and day
type explicit.  Note the strings it returns. -/
def getCurrentTimePeriod (t : PyTime) (isWeekday : Bool) : String :=
  if !isWeekday then "weekend"
  else if (PyTime.le ⟨6, 30, 0⟩ t) && (PyTime.lt t ⟨9, 30, 0⟩) then "am_peak"
  else if (PyTime.le ⟨15, 30, 0⟩ t) && (PyTime.lt t ⟨18, 30, 0⟩) then "pm_peak"
  else if PyTime.le ⟨21, 0, 0⟩ t then "evening"
  else "off_peak"

/-! ### The data model (§3 of the spec, as the code builds it) -/

/-- `operating_hours` sub-object of `BERRI_UQAM`. -/
structure OperatingHours where
  weekday : String
  weekend : String
deriving DecidableEq, Repr

/-- One line's entry of the emitted JSON.  The four alert fields are
present only when the line has an active alert, hence `Option`. -/
structure LineStatus where
  name : String
  route : String
  current_frequency : String
  all_frequencies : List (String × String)
  status : String
  alert_description : Option String
  alert_header : Option String
  alert_start : Option String
  alert_end : Option String
deriving DecidableEq, Repr

/-- The emitted station object.  `is_operating` is `Option` because the
key may or may not be present in the emitted dict. -/
structure StationStatus where
  station_name : String
  operating_hours : OperatingHours
  current_time_period : String
  is_operating : Option Bool
  lines : List (String × LineStatus)
deriving DecidableEq, Repr

/-! ### `BERRI_UQAM` constants -/

def berriName : String := "Berri-UQAM"

def berriLines : List (String × String) :=
  [("1", "Green Line"), ("2", "Orange Line")]

def berriConnections : List (String × String) :=
  [("1", "Angrignon ↔ Honoré-Beaugrand"), ("2", "Côte-Vertu ↔ Montmorency")]

def berriOperatingHours : OperatingHours :=
  ⟨"5:30 AM - 12:30 AM", "5:30 AM - 1:00 AM"⟩

/-- `BERRI_UQAM["frequencies"]["1"]` (the Green Line row; the Orange Line
row `"2"` holds the same values). -/
def berriFrequencies1 : List (String × String) :=
  [("morning_peak", "2-4 minutes"), ("afternoon_peak", "2-4 minutes"),
   ("off_peak", "3-5 minutes"), ("late_evening", "8-10 minutes"),
   ("weekend", "4-8 minutes")]

def berriFrequencies2 : List (String × String) :=
  [("morning_peak", "2-4 minutes"), ("afternoon_peak", "2-4 minutes"),
   ("off_peak", "3-5 minutes"), ("late_evening", "8-10 minutes"),
   ("weekend", "4-8 minutes")]

def berriFrequencies : List (String × List (String × String)) :=
  [("1", berriFrequencies1), ("2", berriFrequencies2)]

/-! ### `metro.py` `get_station_status`: alert extraction -/

/-- One entry of a `description_texts` / `header_texts` array. -/
structure LangText where
  language : String
  text : String
deriving DecidableEq, Repr

/-- One entry of `informed_entities`; `route_short_name` may be absent. -/
structure InformedEntity where
  route_short_name : Option String
deriving DecidableEq, Repr

/-- One element of the API's `messages` array, already parsed
(`requests`/`json()` are the opaque transport). -/
structure ApiMessage where
  informed_entities : List InformedEntity
  description_texts : List LangText
  header_texts : List LangText
  active_start : Option Nat
  active_end : Option Nat
deriving DecidableEq, Repr

/-- The per-route record `get_station_status` accumulates in
`station_alerts`. -/
structure AlertEntry where
  line_name : String
  alert_status : String
  header : String
  start_time : Option Nat
  end_time : Option Nat
deriving DecidableEq, Repr

/-- The English-with-fallback text selection done twice in
`get_station_status`: first text with `language == "en"`, else the first
text, else the given default. -/
def pickText (texts : List LangText) (dflt : String) : String :=
  match texts.find? (fun tx => tx.language == "en") with
  | some tx => tx.text
  | none =>
    match texts.head? with
    | some tx => tx.text
    | none => dflt

/-- The alert-accumulation loop of `get_station_status`: for each message
and informed entity whose `route_short_name` is a key of
`BERRI_UQAM["lines"]`, record an entry for that route unless one exists
(dict insertion order preserved as list order). -/
def extractStationAlerts (messages : List ApiMessage) : List (String × AlertEntry) :=
  messages.foldl
    (fun acc alert =>
      alert.informed_entities.foldl
        (fun acc2 ent =>
          match ent.route_short_name with
          | none => acc2
          | some route =>
            match berriLines.lookup route with
            | none => acc2
            | some lineName =>
              if (acc2.lookup route).isSome then acc2
              else
                acc2 ++ [(route,
                  ⟨lineName,
                   pickText alert.description_texts "No description available",
                   pickText alert.header_texts "No header available",
                   alert.active_start, alert.active_end⟩)])
        acc)
    []

/-- `get_station_status`: an HTTP or parse failure (either `except` arm)
returns the `None` sentinel; success returns the extracted per-route
alerts. -/
def getStationStatus (apiResult : Except String (List ApiMessage)) :
    Option (List (String × AlertEntry)) :=
  match apiResult with
  | .error _ => none
  | .ok msgs => some (extractStationAlerts msgs)

/-- `format_timestamp`, with `strftime` abstracted as `fmt`. -/
def formatTimestamp (fmt : Nat → String) : Option Nat → String
  | some ts => fmt ts
  | none => "No end time specified"

/-- The per-line body of `get_station_data`'s loop.  A missing dict key
is a Python `KeyError`, modelled as `Except.error`; in particular
`frequencies[current_period]` fails whenever `current_period` is not a
key of the frequencies row. -/
def buildLineData (fmt : Nat → String) (alerts : List (String × AlertEntry))
    (currentPeriod : String) (lineNumber : String) : Except String LineStatus :=
  match berriLines.lookup lineNumber with
  | none => .error "KeyError"
  | some lineInfo =>
    match berriConnections.lookup lineNumber with
    | none => .error "KeyError"
    | some connection =>
      match berriFrequencies.lookup lineNumber with
      | none => .error "KeyError"
      | some frequencies =>
        match frequencies.lookup currentPeriod with
        | none => .error "KeyError"
        | some freq =>
          match alerts.lookup lineNumber with
          | none =>
            .ok ⟨lineInfo, connection, freq, frequencies, "normal",
                 none, none, none, none⟩
          | some alert =>
            .ok ⟨lineInfo, connection, freq, frequencies, "alert",
                 some alert.alert_status, some alert.header,
                 some (formatTimestamp fmt alert.start_time),
                 some (formatTimestamp fmt alert.end_time)⟩

/-- `get_station_data`.  `sorted(BERRI_UQAM["lines"].keys())` is
`["1", "2"]`.  Note that the assembled dict has no `is_operating` key. -/
def getStationData (fmt : Nat → String)
    (stationAlerts : Option (List (String × AlertEntry)))
    (currentPeriod : String) : Except String (Option StationStatus) :=
  match stationAlerts with
  | none => .ok none
  | some alerts =>
    match buildLineData fmt alerts currentPeriod "1" with
    | .error e => .error e
    | .ok l1 =>
      match buildLineData fmt alerts currentPeriod "2" with
      | .error e => .error e
      | .ok l2 =>
        .ok (some ⟨berriName, berriOperatingHours, currentPeriod, none,
                   [("1", l1), ("2", l2)]⟩)

/-- The `closed_data` dict emitted by `main` when the metro is closed;
this is the only emitted object carrying an `is_operating` key. -/
def closedStationData : StationStatus :=
  ⟨berriName, berriOperatingHours, "closed", some false, []⟩

/-- What one iteration of `metro.py` `main`'s loop produces: the JSON
object printed (if any) and the `time.sleep` duration before the next
iteration. -/
structure MainOutcome where
  emitted : Option StationStatus
  sleepSeconds : Nat
deriving DecidableEq, Repr

/-- One iteration of `metro.py` `main`.  The blanket `except Exception`
catches any error raised inside the `try` (e.g. the `KeyError` from
`get_station_data`) and sleeps 5 s without emitting; `get_station_data`
returning `None` is logged and sleeps 30 s without emitting; success
emits and sleeps 30 s; a closed metro emits `closed_data` and sleeps
300 s.  Every branch yields an outcome, so the loop never exits. -/
def mainStep (t : PyTime) (isWeekday : Bool)
    (apiResult : Except String (List ApiMessage)) (fmt : Nat → String) :
    MainOutcome :=
  if isMetroOperating t isWeekday then
    match getStationData fmt (getStationStatus apiResult)
        (getCurrentTimePeriod t isWeekday) with
    | .ok (some d) => ⟨some d, 30⟩
    | .ok none => ⟨none, 30⟩
    | .error _ => ⟨none, 5⟩
  else
    ⟨some closedStationData, 300⟩

/-! ### `display.py`: colors and the 5x7 bitmap font -/

/-- An RGB triple. -/
abbrev Color := Nat × Nat × Nat

def colorNormal : Color := (0, 255, 0)
def colorWeekend : Color := (255, 255, 0)
def colorAlert : Color := (255, 0, 0)
def colorWhite : Color := (255, 255, 255)
def colorOff : Color := (0, 0, 0)
def colorGreenLine : Color := (0, 200, 0)
def colorOrangeLine : Color := (255, 165, 0)

/-- The `font_5x7` dict literal of `setup_5x7_font`: five column bytes per
character, bit `row` of column byte `col` lights pixel (col, row). -/
def font5x7Base : List (Char × List Nat) :=
  [('0', [0x3E, 0x51, 0x49, 0x45, 0x3E]),
   ('1', [0x00, 0x42, 0x7F, 0x40, 0x00]),
   ('2', [0x42, 0x61, 0x51, 0x49, 0x46]),
   ('3', [0x21, 0x41, 0x45, 0x4B, 0x31]),
   ('4', [0x18, 0x14, 0x12, 0x7F, 0x10]),
   ('5', [0x27, 0x45, 0x45, 0x45, 0x39]),
   ('6', [0x3C, 0x4A, 0x49, 0x49, 0x30]),
   ('7', [0x01, 0x71, 0x09, 0x05, 0x03]),
   ('8', [0x36, 0x49, 0x49, 0x49, 0x36]),
   ('9', [0x06, 0x49, 0x49, 0x29, 0x1E]),
   ('-', [0x08, 0x08, 0x08, 0x08, 0x08]),
   (':', [0x00, 0x36, 0x36, 0x00, 0x00]),
   ('!', [0x00, 0x00, 0x5F, 0x00, 0x00]),
   (' ', [0x00, 0x00, 0x00, 0x00, 0x00]),
   ('A', [0x7E, 0x11, 0x11, 0x11, 0x7E]),
   ('D', [0x7F, 0x41, 0x41, 0x41, 0x3E]),
   ('E', [0x7F, 0x49, 0x49, 0x49, 0x41]),
   ('F', [0x7F, 0x09, 0x09, 0x09, 0x01]),
   ('G', [0x3E, 0x41, 0x49, 0x49, 0x3A]),
   ('I', [0x00, 0x41, 0x7F, 0x41, 0x00]),
   ('K', [0x7F, 0x08, 0x14, 0x22, 0x41]),
   ('L', [0x7F, 0x40, 0x40, 0x40, 0x40]),
   ('M', [0x7F, 0x02, 0x0C, 0x02, 0x7F]),
   ('N', [0x7F, 0x04, 0x08, 0x10, 0x7F]),
   ('O', [0x3E, 0x41, 0x41, 0x41, 0x3E]),
   ('P', [0x7F, 0x09, 0x09, 0x09, 0x06]),
   ('R', [0x7F, 0x09, 0x19, 0x29, 0x46]),
   ('T', [0x01, 0x01, 0x7F, 0x01, 0x01]),
   ('W', [0x7F, 0x20, 0x18, 0x20, 0x7F]),
   ('Y', [0x07, 0x08, 0x70, 0x08, 0x07])]

/-- `setup_5x7_font` then copies every alphabetic entry to its lowercase
key (`font_5x7.update(lowercase_letters)`; all base keys are uppercase,
so the update only adds new keys). -/
def font5x7 : List (Char × List Nat) :=
  font5x7Base ++
    (font5x7Base.filter (fun e => e.1.isAlpha)).map (fun e => (e.1.toLower, e.2))

/-- Glyph lookup of `draw_5x7_char`: a character missing from the table
falls back to `" "` (whose glyph is all-zero columns). -/
def glyphFor (c : Char) : List Nat :=
  match font5x7.lookup c with
  | some g => g
  | none => (font5x7.lookup ' ').getD [0, 0, 0, 0, 0]

/-! ### Pixel-write events and frames -/

/-- One `draw.point`/fill write: (column, row, color). -/
abbrev PixelWrite := Nat × Nat × Color

/-- The writes issued by `draw_5x7_char` at cursor (x, y): an optional
6x8 background rectangle (`draw.rectangle [(x, y), (x+5, y+7)]`, corners
inclusive), then one point per set glyph bit, column-major. -/
def charWrites (x y : Nat) (c : Char) (color : Color)
    (background : Option Color) : List PixelWrite :=
  let g := glyphFor c
  let bg : List PixelWrite :=
    match background with
    | some b =>
      (List.range 6).flatMap (fun i => (List.range 8).map (fun j => (x + i, y + j, b)))
    | none => []
  bg ++ (List.range 5).flatMap (fun col =>
    (List.range 7).filterMap (fun row =>
      if (g.getD col 0).testBit row then some (x + col, y + row, color) else none))

/-- The writes issued by `draw_5x7_text`: the cursor starts at `x`, the
loop breaks at the first character with `cursor_x + 5 > 64` (the image
width), and each drawn character advances the cursor by 6. -/
def textWrites (x y : Nat) (text : List Char) (color : Color)
    (background : Option Color) : List PixelWrite :=
  match text with
  | [] => []
  | c :: rest =>
    if x + 5 > 64 then []
    else charWrites x y c color background ++
      textWrites (x + 6) y rest color background

/-- A 64x32 frame, as a total pixel function (queries outside the image
are answered but never drawn). -/
def Frame := Nat → Nat → Color

/-- `Image.new "RGB" (64, 32)` starts all black. -/
def blackFrame : Frame := fun _ _ => colorOff

/-- A single pixel write; PIL silently clips writes outside the image. -/
def setPixel (f : Frame) (x y : Nat) (c : Color) : Frame :=
  fun px py => if px = x ∧ py = y ∧ x ≤ 63 ∧ y ≤ 31 then c else f px py

def applyWrites (f : Frame) (ws : List PixelWrite) : Frame :=
  ws.foldl (fun acc w => setPixel acc w.1 w.2.1 w.2.2) f

/-- `draw.rectangle [(x0, y0), (x1, y1)]` with fill: both corners
inclusive, clipped to the image. -/
def fillRect (f : Frame) (x0 y0 x1 y1 : Nat) (c : Color) : Frame :=
  fun px py =>
    if x0 ≤ px ∧ px ≤ x1 ∧ y0 ≤ py ∧ py ≤ y1 ∧ px ≤ 63 ∧ py ≤ 31 then c
    else f px py

/-- Rasterization model of `draw.ellipse` on the bounding box
`[(cx-r, cy-r), (cx+r, cy+r)]` with fill: the integer points within
distance `r` of the centre, clipped to the image. -/
def fillCircle (f : Frame) (cx cy r : Nat) (c : Color) : Frame :=
  fun px py =>
    if ((px : Int) - cx) ^ 2 + ((py : Int) - cy) ^ 2 ≤ (r : Int) ^ 2
        ∧ px ≤ 63 ∧ py ≤ 31 then c
    else f px py

/-- `draw_5x7_text` applied to a frame. -/
def draw5x7TextOn (f : Frame) (x y : Nat) (text : String) (color : Color)
    (background : Option Color) : Frame :=
  applyWrites f (textWrites x y text.data color background)

/-! ### `update_display` -/

/-- Python `str.upper()` (ASCII is all the program feeds it). -/
def pyUpper (s : String) : String :=
  ⟨s.data.map Char.toUpper⟩

/-- Python `str.replace` (all non-overlapping occurrences, left to
right) on character lists, with a structural fuel so it computes by
kernel reduction; a nonempty pattern consumes at least one character
per step, so fuel `s.length` never runs out. -/
def replaceFuel (pat rep : List Char) : Nat → List Char → List Char
  | 0, s => s
  | fuel + 1, s =>
    match s with
    | [] => []
    | c :: rest =>
      if pat.isPrefixOf s then rep ++ replaceFuel pat rep fuel (s.drop pat.length)
      else c :: replaceFuel pat rep fuel rest

/-- Python `str.replace` on strings (the empty-pattern case is never
used by the program). -/
def pyReplace (s pat rep : String) : String :=
  match pat.data with
  | [] => s
  | _ :: _ => ⟨replaceFuel pat.data rep.data s.data.length s.data⟩

/-- `update_display`'s frequency abbreviation:
`freq.replace("minutes", "min")`. -/
def freqDisplay (l : LineStatus) : String :=
  pyReplace l.current_frequency "minutes" "min"

/-- `update_display`'s per-line text: a leading space plus the
abbreviated frequency, with a `"!"` suffix exactly on alert lines. -/
def lineFreqText (l : LineStatus) : String :=
  if l.status == "alert" then " " ++ freqDisplay l ++ "!"
  else " " ++ freqDisplay l

/-- `update_display`'s per-line text color: alert red, otherwise white. -/
def lineTextColor (l : LineStatus) : Color :=
  if l.status == "alert" then colorAlert else colorWhite

/-- The period-label color: yellow for `"weekend"`, else white. -/
def periodColor (st : StationStatus) : Color :=
  if st.current_time_period == "weekend" then colorWeekend else colorWhite

/-- `line_data["name"][0].upper()` and the circle-color choice; indexing
an empty name is a Python `IndexError`. -/
def lineCircleColor (l : LineStatus) : Except String Color :=
  match l.name.data with
  | [] => .error "IndexError"
  | ch :: _ =>
    let first := ch.toUpper
    .ok (if first = 'G' then colorGreenLine
         else if first = 'O' then colorOrangeLine
         else colorWhite)

/-- One iteration of `update_display`'s per-line loop at row `yPos`:
colored circle at (6, yPos+4) radius 3, then the frequency text at
(10, yPos). -/
def renderLine (f : Frame) (yPos : Nat) (l : LineStatus) :
    Except String Frame := do
  let cc ← lineCircleColor l
  let f1 := fillCircle f 6 (yPos + 4) 3 cc
  .ok (draw5x7TextOn f1 10 yPos (lineFreqText l) (lineTextColor l) none)

/-- `update_display`'s loop over `station_data["lines"].items()`:
`y_pos` starts at 12 and advances by 10 per line. -/
def renderLines (f : Frame) (yPos : Nat) :
    List (String × LineStatus) → Except String Frame
  | [] => .ok f
  | (_, l) :: rest => do
    let f1 ← renderLine f yPos l
    renderLines f1 (yPos + 10) rest

/-- The `try` body of `update_display`: clear the buffer to black, draw
the upper-cased period label at (2, 2) in the period color, then draw
each line row. -/
def renderFrame (st : StationStatus) : Except String Frame := do
  let f0 := fillRect blackFrame 0 0 63 31 colorOff
  let f1 := draw5x7TextOn f0 2 2 (pyUpper st.current_time_period)
    (periodColor st) none
  renderLines f1 12 st.lines

/-- What `update_display` pushes to the hardware: the rendered frame on
success, or (via the `except` arm calling `show_error`) the error frame,
whose pixels come from PIL's opaque font rendering and are therefore
kept symbolic. -/
inductive PushedFrame where
  | rendered (f : Frame)
  | errorDisplay

/-- `update_display` as a whole: `none` would model an exception
propagating to the caller with no frame pushed, which the `try/except`
structure rules out. -/
def updateDisplay (st : StationStatus) : Option PushedFrame :=
  match renderFrame st with
  | .ok f => some (.rendered f)
  | .error _ => some .errorDisplay

/-- A rendered pixel of `update_display`'s success path. -/
def renderedPixel (st : StationStatus) (x y : Nat) : Option Color :=
  match renderFrame st with
  | .ok f => some (f x y)
  | .error _ => none

/-! ### `run_display.py`: the supervisor as a transition system -/

inductive ProcId where
  | metro
  | display
deriving DecidableEq, Repr

/-- Observable process-control actions of the supervisor. -/
inductive SupEvent where
  | spawned (p : ProcId)
  | terminated (p : ProcId)
  | killed (p : ProcId)
deriving DecidableEq, Repr

/-- Control positions inside `MetroDisplayRunner.run`:
spawning the pair, the inner monitor loop, `cleanup()`, the
restart wait, and loop exit. -/
inductive SupPhase where
  | spawning
  | monitoring
  | cleaning
  | restarting
  | stopped
deriving DecidableEq, Repr

structure SupState where
  running : Bool
  metroAlive : Bool
  displayAlive : Bool
  phase : SupPhase
  elapsed : Nat
  events : List SupEvent
deriving Repr

/-- Per-step environment oracle: whether each child process exits during
this step, and whether it would exit within the 5 s `wait` after
`terminate()` (if not, `kill()` follows). -/
structure SupEnv where
  metroExits : Bool
  displayExits : Bool
  metroTermResponsive : Bool
  displayTermResponsive : Bool
deriving DecidableEq, Repr

/-- The `cleanup()` treatment of one child handle: `terminate()`, then
`wait(timeout=5)`, then `kill()` on `TimeoutExpired`.  An
already-exited child returns from `wait` immediately; for a live one we
charge the full 5 s timeout as the (upper-bound) delay. -/
def cleanupProc (alive responsive : Bool) (p : ProcId) :
    List SupEvent × Nat :=
  if alive then
    if responsive then ([.terminated p], 5)
    else ([.terminated p, .killed p], 5)
  else ([.terminated p], 0)

/-- One small step of `MetroDisplayRunner.run`.  In `monitoring`, the
two `poll()` checks break out to `cleanup()` as soon as either child has
exited (before the 1 s sleep); `cleanup()` handles both children and
moves to the restart wait; the restart wait sleeps 5 s and re-enters the
spawning code if `self.running` still holds; spawning starts the
display then the metro child and re-enters the monitor loop. -/
def supStep (s : SupState) (e : SupEnv) : SupState :=
  match s.phase with
  | .spawning =>
    if s.running then
      ⟨s.running, true, true, .monitoring, s.elapsed,
       s.events ++ [.spawned .display, .spawned .metro]⟩
    else
      ⟨s.running, s.metroAlive, s.displayAlive, .stopped, s.elapsed, s.events⟩
  | .monitoring =>
    if s.running then
      let mA := s.metroAlive && !e.metroExits
      let dA := s.displayAlive && !e.displayExits
      if !mA || !dA then
        ⟨s.running, mA, dA, .cleaning, s.elapsed, s.events⟩
      else
        ⟨s.running, mA, dA, .monitoring, s.elapsed + 1, s.events⟩
    else
      ⟨s.running, s.metroAlive, s.displayAlive, .cleaning, s.elapsed, s.events⟩
  | .cleaning =>
    let cm := cleanupProc s.metroAlive e.metroTermResponsive .metro
    let cd := cleanupProc s.displayAlive e.displayTermResponsive .display
    ⟨s.running, false, false, .restarting, s.elapsed + cm.2 + cd.2,
     s.events ++ cm.1 ++ cd.1⟩
  | .restarting =>
    if s.running then
      ⟨s.running, false, false, .spawning, s.elapsed + 5, s.events⟩
    else
      ⟨s.running, false, false, .stopped, s.elapsed, s.events⟩
  | .stopped => s

/-! ### The JSON wire format between the two processes

`metro.py` prints `json.dumps(station_data)` as one line; `display.py`
reads a line and applies `json.loads`.  The stdlib codec pair is an
opaque external collaborator, modelled as faithful transport of the JSON
syntax tree below; the repository-owned content is which tree the
Fetcher builds (`encodeStationStatus`, mirroring the dict construction
in `metro.py`) and how the dict fields are read back on the Renderer
side (`decodeStationStatus`, reading exactly the keys `display.py`
accesses, each at the type the code assumes). -/

inductive Json where
  | str : String → Json
  | bool : Bool → Json
  | obj : List (String × Json) → Json

def jStr? : Json → Option String
  | .str s => some s
  | _ => none

def jBool? : Json → Option Bool
  | .bool b => some b
  | _ => none

def jObj? : Json → Option (List (String × Json))
  | .obj l => some l
  | _ => none

/-- Dict key access on a decoded object. -/
def getKey (k : String) (fields : List (String × Json)) : Option Json :=
  fields.lookup k

def encodeFreqs (fs : List (String × String)) : List (String × Json) :=
  fs.map (fun p => (p.1, .str p.2))

/-- An optional dict key: present exactly when the value is `some`. -/
def encodeOptStr (k : String) : Option String → List (String × Json)
  | some v => [(k, .str v)]
  | none => []

/-- The per-line dict built by `get_station_data` (base keys in
construction order, then the four alert keys added by `update` when the
line has an alert). -/
def encodeLineStatus (l : LineStatus) : Json :=
  .obj ([("name", .str l.name), ("route", .str l.route),
         ("current_frequency", .str l.current_frequency),
         ("all_frequencies", .obj (encodeFreqs l.all_frequencies)),
         ("status", .str l.status)] ++
        encodeOptStr "alert_description" l.alert_description ++
        encodeOptStr "alert_header" l.alert_header ++
        encodeOptStr "alert_start" l.alert_start ++
        encodeOptStr "alert_end" l.alert_end)

/-- The top-level dict (`station_data` / `closed_data` key order), with
`is_operating` present exactly when the Fetcher set it. -/
def encodeStationStatus (s : StationStatus) : Json :=
  .obj ([("station_name", .str s.station_name),
         ("operating_hours",
          .obj [("weekday", .str s.operating_hours.weekday),
                ("weekend", .str s.operating_hours.weekend)]),
         ("current_time_period", .str s.current_time_period),
         ("lines", .obj (s.lines.map (fun p => (p.1, encodeLineStatus p.2))))] ++
        (match s.is_operating with
         | some b => [("is_operating", .bool b)]
         | none => []))

def decodeFreqs : List (String × Json) → Option (List (String × String))
  | [] => some []
  | (k, v) :: rest => do
    let s ← jStr? v
    let r ← decodeFreqs rest
    some ((k, s) :: r)

/-- Read an optional string key: absent is fine (`none`), present must
be a string. -/
def decodeOptStr (k : String) (fields : List (String × Json)) :
    Option (Option String) :=
  match getKey k fields with
  | none => some none
  | some v => (jStr? v).map some

def decodeLineStatus (j : Json) : Option LineStatus := do
  let fields ← jObj? j
  let nm ← getKey "name" fields >>= jStr?
  let rt ← getKey "route" fields >>= jStr?
  let cf ← getKey "current_frequency" fields >>= jStr?
  let afFields ← getKey "all_frequencies" fields >>= jObj?
  let af ← decodeFreqs afFields
  let st ← getKey "status" fields >>= jStr?
  let ad ← decodeOptStr "alert_description" fields
  let ah ← decodeOptStr "alert_header" fields
  let a1 ← decodeOptStr "alert_start" fields
  let a2 ← decodeOptStr "alert_end" fields
  some ⟨nm, rt, cf, af, st, ad, ah, a1, a2⟩

def decodeLines : List (String × Json) → Option (List (String × LineStatus))
  | [] => some []
  | (k, v) :: rest => do
    let l ← decodeLineStatus v
    let r ← decodeLines rest
    some ((k, l) :: r)

def decodeStationStatus (j : Json) : Option StationStatus := do
  let fields ← jObj? j
  let sn ← getKey "station_name" fields >>= jStr?
  let ohFields ← getKey "operating_hours" fields >>= jObj?
  let ohWeekday ← getKey "weekday" ohFields >>= jStr?
  let ohWeekend ← getKey "weekend" ohFields >>= jStr?
  let period ← getKey "current_time_period" fields >>= jStr?
  let lnFields ← getKey "lines" fields >>= jObj?
  let lns ← decodeLines lnFields
  let iop ←
    match getKey "is_operating" fields with
    | none => some none
    | some v => (jBool? v).map some
  some ⟨sn, ⟨ohWeekday, ohWeekend⟩, period, iop, lns⟩

/-! ### Helper lemmas about the pixel-write semantics -/

/-- Every write of `draw_5x7_char` without background lands within the
5x7 glyph box at the cursor. -/
theorem mem_charWrites_none {x y : Nat} {c : Char} {color : Color}
    {w : PixelWrite} (h : w ∈ charWrites x y c color none) :
    ∃ col row, col < 5 ∧ row < 7 ∧ w = (x + col, y + row, color) := by
  simp only [charWrites, List.nil_append, List.mem_flatMap,
    List.mem_filterMap, List.mem_range] at h
  obtain ⟨col, hcol, row, hrow, hw⟩ := h
  by_cases hbit : (((glyphFor c).getD col 0).testBit row) = true
  · rw [if_pos hbit] at hw
    exact ⟨col, row, hcol, hrow, (Option.some_inj.mp hw).symm⟩
  · rw [if_neg hbit] at hw
    exact absurd hw (by simp)

/-- Every write of `draw_5x7_text` without background stays at or right
of the starting cursor, within columns 0–63, and within the seven glyph
rows. -/
theorem textWrites_bounds (text : List Char) :
    ∀ (x y : Nat) (color : Color) (w : PixelWrite),
      w ∈ textWrites x y text color none →
      x ≤ w.1 ∧ w.1 ≤ 63 ∧ y ≤ w.2.1 ∧ w.2.1 ≤ y + 6 := by
  induction text with
  | nil => intro x y color w h; exact absurd h (by simp [textWrites])
  | cons c rest ih =>
    intro x y color w h
    rw [textWrites] at h
    by_cases hfit : x + 5 > 64
    · rw [if_pos hfit] at h
      exact absurd h (by simp)
    · rw [if_neg hfit] at h
      rcases List.mem_append.mp h with hc | ht
      · obtain ⟨col, row, hcol, hrow, hw⟩ := mem_charWrites_none hc
        subst hw
        simp only
        omega
      · have := ih (x + 6) y color w ht
        omega

/-- A pixel no write targets is left unchanged by `applyWrites`. -/
theorem applyWrites_not_written (ws : List PixelWrite) :
    ∀ (f : Frame) (px py : Nat),
      (∀ w ∈ ws, ¬(w.1 = px ∧ w.2.1 = py)) →
      applyWrites f ws px py = f px py := by
  induction ws with
  | nil => intro f px py _; rfl
  | cons w ws ih =>
    intro f px py h
    show applyWrites (setPixel f w.1 w.2.1 w.2.2) ws px py = f px py
    rw [ih _ px py (fun v hv => h v (List.mem_cons_of_mem w hv))]
    have hw := h w (List.mem_cons_self w ws)
    rw [setPixel, if_neg]
    rintro ⟨h1, h2, -⟩
    exact hw ⟨h1.symm, h2.symm⟩

/-- The cleared double buffer of `update_display` is all black. -/
theorem cleared_eq_off (px py : Nat) :
    fillRect blackFrame 0 0 63 31 colorOff px py = colorOff := by
  rw [fillRect]
  split <;> rfl

/-- How many leading characters `draw_5x7_text` has room to draw from
cursor `x`: the loop breaks at the first character with
`cursor_x + 5 > 64`. -/
def fitCount : Nat → List Char → Nat
  | _, [] => 0
  | x, _ :: rest => if x + 5 > 64 then 0 else fitCount (x + 6) rest + 1

/-- `draw_5x7_text` draws exactly the fitting prefix of its text. -/
theorem textWrites_take_fitCount (text : List Char) :
    ∀ (x y : Nat) (color : Color),
      textWrites x y text color none =
        textWrites x y (text.take (fitCount x text)) color none := by
  induction text with
  | nil => intro x y color; rfl
  | cons c rest ih =>
    intro x y color
    by_cases hfit : x + 5 > 64
    · rw [fitCount, if_pos hfit]
      simp [textWrites, if_pos hfit]
    · rw [fitCount, if_neg hfit, List.take_succ_cons, textWrites, textWrites,
        if_neg hfit, if_neg hfit, ih (x + 6) y color]

/-! ### Claim theorems -/

/-- C10: for every text, starting column, row and color, `draw_5x7_text`
(with its default `background=None`) writes pixels only at columns
`x`–63 of the frame; nothing at all is drawn when the first glyph's full
5-pixel width does not fit, and in general exactly the fitting prefix of
the text is drawn — truncation, never wrapping. -/
theorem claim_C10 (text : List Char) (x y : Nat) (color : Color) :
    (∀ w ∈ textWrites x y text color none, x ≤ w.1 ∧ w.1 ≤ 63) ∧
    (x + 5 > 64 → textWrites x y text color none = []) ∧
    textWrites x y text color none =
      textWrites x y (text.take (fitCount x text)) color none := by
  refine ⟨?_, ?_, textWrites_take_fitCount text x y color⟩
  · intro w hw
    have := textWrites_bounds text x y color w hw
    exact ⟨this.1, this.2.1⟩
  · intro hfit
    cases text with
    | nil => rfl
    | cons c rest => rw [textWrites, if_pos hfit]

/-- Witness for C10 at a concrete call. -/
theorem claim_C10_witness :
    (∀ w ∈ textWrites 2 2 ['O', 'K'] colorWhite none, 2 ≤ w.1 ∧ w.1 ≤ 63) ∧
    (2 + 5 > 64 → textWrites 2 2 ['O', 'K'] colorWhite none = []) ∧
    textWrites 2 2 ['O', 'K'] colorWhite none =
      textWrites 2 2 (['O', 'K'].take (fitCount 2 ['O', 'K'])) colorWhite none :=
  claim_C10 ['O', 'K'] 2 2 colorWhite

/-- C1 counterexample: the Fetcher's closed status object (which has
`is_operating = false` and `current_time_period = "closed"`) does NOT
render to an all-black frame — `update_display` has no blanking branch,
so the period label is drawn and pixel (8, 2) (the left column of the
`L` of `CLOSED`) is lit white. -/
theorem claim_C1_counterexample :
    closedStationData.is_operating = some false ∧
    closedStationData.current_time_period = "closed" ∧
    renderedPixel closedStationData 8 2 = some colorWhite ∧
    colorWhite ≠ colorOff :=
  ⟨rfl, rfl, by decide, by decide⟩

/-- C1 amended: for every station status with
`current_time_period = "closed"` and an empty `lines` mapping (the shape
the Fetcher emits when not operating), `update_display` renders
successfully, but the frame is not blank: the upper-cased period label
is drawn (pixel (8, 2) is white), while every pixel outside the label's
seven rows 2–8 stays black, so no line indicators or frequency text
appear. -/
theorem claim_C1_amended (st : StationStatus)
    (hper : st.current_time_period = "closed") (hlines : st.lines = []) :
    ∃ f, renderFrame st = .ok f ∧
      f 8 2 = colorWhite ∧ colorWhite ≠ colorOff ∧
      ∀ x y, y < 2 ∨ 8 < y → f x y = colorOff := by
  have hcol : periodColor st = colorWhite := by
    rw [periodColor, hper]
    rfl
  have hframe : renderFrame st =
      .ok (draw5x7TextOn (fillRect blackFrame 0 0 63 31 colorOff) 2 2
        (pyUpper "closed") colorWhite none) := by
    rw [renderFrame, hper, hlines, hcol]
    rfl
  refine ⟨_, hframe, by decide, by decide, ?_⟩
  intro x y hy
  rw [draw5x7TextOn, applyWrites_not_written, cleared_eq_off]
  intro w hw
  have hb := textWrites_bounds (pyUpper "closed").data 2 2 colorWhite w hw
  rintro ⟨-, h2⟩
  omega

/-- Witness for the amended C1 at the Fetcher's closed object. -/
theorem claim_C1_amended_witness :
    ∃ f, renderFrame closedStationData = .ok f ∧
      f 8 2 = colorWhite ∧ colorWhite ≠ colorOff ∧
      ∀ x y, y < 2 ∨ 8 < y → f x y = colorOff :=
  claim_C1_amended closedStationData rfl rfl

/-- Modelled from the spec: the `current_time_period` enumeration of §3. -/
def specTimePeriods : List String :=
  ["morning_peak", "afternoon_peak", "off_peak", "late_evening", "weekend",
   "closed"]

/-- C2: on a weekday at 07:00 — morning peak — `get_current_time_period`
returns `"am_peak"`, which is outside the spec's enumeration and is not
a key of the `BERRI_UQAM` frequencies rows, so `get_station_data` raises
`KeyError` and the cycle emits nothing (falling into the 5-second
exception path) even though the API call succeeded. -/
theorem claim_C2_code_bug :
    getCurrentTimePeriod ⟨7, 0, 0⟩ true = "am_peak" ∧
    "am_peak" ∉ specTimePeriods ∧
    List.lookup "am_peak" berriFrequencies1 = none ∧
    isMetroOperating ⟨7, 0, 0⟩ true = true ∧
    mainStep ⟨7, 0, 0⟩ true (Except.ok []) (fun _ => "") = ⟨none, 5⟩ :=
  ⟨by decide, by decide, by decide, by decide, by decide⟩

/-- An operating-branch station object always carries
`is_operating = none` (no such key), straight from the construction in
`get_station_data`. -/
theorem getStationData_no_is_operating (fmt : Nat → String)
    (alerts : Option (List (String × AlertEntry))) (per : String)
    (x : StationStatus) (h : getStationData fmt alerts per = .ok (some x)) :
    x.is_operating = none := by
  match alerts with
  | none => simp [getStationData] at h
  | some al =>
    rw [getStationData] at h
    cases h1 : buildLineData fmt al per "1" with
    | error e => rw [h1] at h; exact absurd h (by simp)
    | ok l1 =>
      cases h2 : buildLineData fmt al per "2" with
      | error e => rw [h1, h2] at h; exact absurd h (by simp)
      | ok l2 =>
        rw [h1, h2] at h
        simp only [Except.ok.injEq, Option.some.injEq] at h
        rw [← h]

/-- C3 counterexample: at weekday noon with a successful API call the
Fetcher emits a station object, and its `is_operating` field is absent
(`none`) — only the closed branch writes that key. -/
theorem claim_C3_counterexample :
    (mainStep ⟨12, 0, 0⟩ true (Except.ok []) (fun _ => "")).emitted.map
      (fun d => d.is_operating) = some none := by decide

/-- C3 amended: every station object the Fetcher emits while operating
omits the `is_operating` key (it still has the other four fields, by
shape), and the closed branch emits exactly `closed_data`, which carries
`is_operating = false`. -/
theorem claim_C3_amended (t : PyTime) (wd : Bool)
    (api : Except String (List ApiMessage)) (fmt : Nat → String)
    (d : StationStatus) (h : (mainStep t wd api fmt).emitted = some d) :
    (isMetroOperating t wd = true → d.is_operating = none) ∧
    (isMetroOperating t wd = false →
      d = closedStationData ∧ d.is_operating = some false) := by
  rw [mainStep] at h
  by_cases hop : isMetroOperating t wd = true
  · rw [if_pos hop] at h
    refine ⟨fun _ => ?_, fun hfalse => absurd hop (by simp [hfalse])⟩
    cases hgd : getStationData fmt (getStationStatus api)
        (getCurrentTimePeriod t wd) with
    | error e => rw [hgd] at h; exact absurd h (by simp)
    | ok o =>
      cases o with
      | none => rw [hgd] at h; exact absurd h (by simp)
      | some x =>
        rw [hgd] at h
        simp only [Option.some.injEq] at h
        rw [← h]
        exact getStationData_no_is_operating fmt (getStationStatus api) _ x hgd
  · rw [if_neg hop] at h
    simp only [Option.some.injEq] at h
    refine ⟨fun htrue => absurd htrue hop, fun _ => ⟨h.symm, ?_⟩⟩
    rw [← h]
    rfl

/-- Witness for the amended C3 in the closed branch. -/
theorem claim_C3_amended_witness :
    closedStationData = closedStationData ∧
    closedStationData.is_operating = some false :=
  (claim_C3_amended ⟨3, 0, 0⟩ true (Except.ok []) (fun _ => "")
    closedStationData (by decide)).2 (by decide)

/-- C4: `is_metro_operating` is true at exactly 05:30:00 and false at
05:29:59 for both day types, and every time of day at or before the day
type's closing boundary (the `weekday_end` / `weekend_end` constant,
i.e. a post-midnight time) is reported as operating. -/
theorem claim_C4 (isWeekday : Bool) (t : PyTime)
    (h : PyTime.le t (closingBoundary isWeekday) = true) :
    isMetroOperating ⟨5, 30, 0⟩ isWeekday = true ∧
    isMetroOperating ⟨5, 29, 59⟩ isWeekday = false ∧
    isMetroOperating t isWeekday = true := by
  cases isWeekday with
  | true =>
    refine ⟨by decide, by decide, ?_⟩
    rw [isMetroOperating]
    simp only [if_true]
    cases hs : PyTime.le ⟨5, 30, 0⟩ t with
    | true => simp
    | false =>
      rw [closingBoundary] at h
      simp only [if_true] at h
      simp [h]
  | false =>
    refine ⟨by decide, by decide, ?_⟩
    rw [isMetroOperating]
    simp only [Bool.false_eq_true, if_false]
    cases hs : PyTime.le ⟨5, 30, 0⟩ t with
    | true => simp
    | false =>
      rw [closingBoundary] at h
      simp only [Bool.false_eq_true, if_false] at h
      simp [h]

/-- Witness for C4 at 00:45 on a weekday (a post-midnight, pre-boundary
time). -/
theorem claim_C4_witness :
    isMetroOperating ⟨5, 30, 0⟩ true = true ∧
    isMetroOperating ⟨5, 29, 59⟩ true = false ∧
    isMetroOperating ⟨0, 45, 0⟩ true = true :=
  claim_C4 true ⟨0, 45, 0⟩ (by decide)

/-- C5: for every (well-shaped) station status, `update_display` always
pushes some frame: the rendered frame when the `try` body succeeds, and
otherwise — via the `except` arm calling `show_error` — the error
frame.  No exception escapes. -/
theorem claim_C5 (st : StationStatus) :
    (∃ f, renderFrame st = .ok f ∧ updateDisplay st = some (.rendered f)) ∨
    updateDisplay st = some .errorDisplay := by
  rw [updateDisplay]
  cases h : renderFrame st with
  | ok f => exact .inl ⟨f, rfl, rfl⟩
  | error e => exact .inr rfl

/-- `str.endswith` check used to state the alert-marker property. -/
def strEndsWith (s sfx : String) : Bool :=
  sfx.data.isSuffixOf s.data

/-- The frequency strings appearing in the `BERRI_UQAM` table (the only
`current_frequency` values the Fetcher ever emits). -/
def berriFreqValues : List String :=
  ["2-4 minutes", "3-5 minutes", "8-10 minutes", "4-8 minutes"]

/-- C6: in `update_display`'s per-line rendering, a line with
`status = "alert"` gets a frequency text ending in `"!"` drawn in the
alert color, while a `status = "normal"` line (with any frequency the
Fetcher emits) gets neither the suffix nor the alert color. -/
theorem claim_C6 (l : LineStatus)
    (hf : l.current_frequency ∈ berriFreqValues) :
    (l.status = "alert" →
      strEndsWith (lineFreqText l) "!" = true ∧ lineTextColor l = colorAlert) ∧
    (l.status = "normal" →
      strEndsWith (lineFreqText l) "!" = false ∧ lineTextColor l ≠ colorAlert) := by
  obtain ⟨nm, rt, cf, af, stt, a1, a2, a3, a4⟩ := l
  simp only [berriFreqValues, List.mem_cons, List.not_mem_nil, or_false] at hf
  constructor
  · intro hstat
    simp only at hstat
    subst hstat
    rcases hf with h | h | h | h <;> (subst h; exact ⟨rfl, rfl⟩)
  · intro hstat
    simp only at hstat
    subst hstat
    rcases hf with h | h | h | h <;>
      (subst h
       refine ⟨rfl, fun hc => ?_⟩
       have hc2 : colorWhite = colorAlert := hc
       revert hc2
       decide)

/-- Witness for C6 on an alert line with a table frequency. -/
theorem claim_C6_witness :
    strEndsWith
      (lineFreqText ⟨"Green Line", "r", "2-4 minutes", [], "alert",
        none, none, none, none⟩) "!" = true ∧
    lineTextColor ⟨"Green Line", "r", "2-4 minutes", [], "alert",
      none, none, none, none⟩ = colorAlert :=
  (claim_C6 _ (by decide)).1 rfl

/-- C7: when the API call fails (either `except` arm of
`get_station_status`), the fetch returns the `None` sentinel and the
operating-branch cycle emits nothing, sleeping the fixed 30 s before
the loop's next iteration — the loop itself continues (every branch of
`mainStep` yields an outcome). -/
theorem claim_C7 (t : PyTime) (wd : Bool) (err : String)
    (fmt : Nat → String) (hop : isMetroOperating t wd = true) :
    getStationStatus (Except.error err) = none ∧
    mainStep t wd (Except.error err) fmt = ⟨none, 30⟩ := by
  refine ⟨rfl, ?_⟩
  rw [mainStep, if_pos hop]
  rfl

/-- Witness for C7 at weekday noon. -/
theorem claim_C7_witness :
    getStationStatus (Except.error "ConnectionError") = none ∧
    mainStep ⟨12, 0, 0⟩ true (Except.error "ConnectionError") (fun _ => "") =
      ⟨none, 30⟩ :=
  claim_C7 ⟨12, 0, 0⟩ true "ConnectionError" (fun _ => "") (by decide)

/-! ### Round-trip of the wire format -/

theorem decodeFreqs_encodeFreqs (fs : List (String × String)) :
    decodeFreqs (encodeFreqs fs) = some fs := by
  induction fs with
  | nil => rfl
  | cons p rest ih =>
    obtain ⟨k, v⟩ := p
    have h1 : decodeFreqs (encodeFreqs ((k, v) :: rest)) =
        Option.bind (decodeFreqs (encodeFreqs rest))
          (fun r => some ((k, v) :: r)) := rfl
    rw [h1, ih]
    rfl

theorem bind_decodeFreqs (af : List (String × String))
    (k : List (String × String) → Option LineStatus) :
    Option.bind (decodeFreqs (encodeFreqs af)) k = k af := by
  rw [decodeFreqs_encodeFreqs]
  rfl

theorem decodeLineStatus_encodeLineStatus (l : LineStatus) :
    decodeLineStatus (encodeLineStatus l) = some l := by
  obtain ⟨nm, rt, cf, af, stt, a1, a2, a3, a4⟩ := l
  cases a1 <;> cases a2 <;> cases a3 <;> cases a4 <;>
    exact bind_decodeFreqs af _

theorem decodeLines_encodeLines (ls : List (String × LineStatus)) :
    decodeLines (ls.map (fun p => (p.1, encodeLineStatus p.2))) = some ls := by
  induction ls with
  | nil => rfl
  | cons p rest ih =>
    obtain ⟨k, l⟩ := p
    have h1 : decodeLines
        (((k, l) :: rest).map (fun p => (p.1, encodeLineStatus p.2))) =
        Option.bind (decodeLineStatus (encodeLineStatus l)) (fun a =>
          Option.bind
            (decodeLines (rest.map (fun p => (p.1, encodeLineStatus p.2))))
            (fun r => some ((k, a) :: r))) := rfl
    rw [h1, decodeLineStatus_encodeLineStatus, ih]
    rfl

theorem bind_decodeLines (ls : List (String × LineStatus))
    (k : List (String × LineStatus) → Option StationStatus) :
    Option.bind (decodeLines (ls.map (fun p => (p.1, encodeLineStatus p.2)))) k
      = k ls := by
  rw [decodeLines_encodeLines]
  rfl

/-- C8: encoding a station status the way the Fetcher builds its dict
and reading it back the way the Renderer reads dict fields is the
identity — the wire format loses nothing. -/
theorem claim_C8 (s : StationStatus) :
    decodeStationStatus (encodeStationStatus s) = some s := by
  obtain ⟨sn, ⟨ow, oe⟩, per, iop, lns⟩ := s
  cases iop <;> exact bind_decodeLines lns _

/-! ### Supervisor restart -/

theorem cleanupProc_delay_le (a r : Bool) (p : ProcId) :
    (cleanupProc a r p).2 ≤ 5 := by
  cases a <;> cases r <;> simp [cleanupProc]

theorem cleanupProc_term_mem (a r : Bool) (p : ProcId) :
    SupEvent.terminated p ∈ (cleanupProc a r p).1 := by
  cases a <;> cases r <;> simp [cleanupProc]

theorem cleanupProc_kill_mem (r : Bool) (p : ProcId) (hr : r = false) :
    SupEvent.killed p ∈ (cleanupProc true r p).1 := by
  subst hr
  simp [cleanupProc]

/-- The monitor loop breaks to `cleanup()` as soon as a `poll()` sees a
dead child. -/
theorem supStep_monitor_to_cleaning (m d : Bool) (el : Nat)
    (evs : List SupEvent) (e : SupEnv)
    (hc : (!(m && !e.metroExits) || !(d && !e.displayExits)) = true) :
    supStep ⟨true, m, d, .monitoring, el, evs⟩ e =
      ⟨true, m && !e.metroExits, d && !e.displayExits, .cleaning, el, evs⟩ := by
  obtain ⟨me, de, mr, dr⟩ := e
  simp only at hc
  cases m <;> cases d <;> cases me <;> cases de <;>
    first
      | rfl
      | exact absurd hc (by decide)

/-- C9: from a monitoring state in which either child has exited (and
the supervisor is still running), four steps — detection, `cleanup()`,
the 5 s restart wait, and the re-spawn — put the system back in the
monitor loop with both children alive, after at most 15 modelled
seconds; along the way both child handles receive `terminate()`, a
still-live child that ignores it is `kill()`ed after the wait timeout,
and both children are re-spawned. -/
theorem claim_C9 (s : SupState) (e1 e2 e3 e4 : SupEnv)
    (hph : s.phase = .monitoring) (hrun : s.running = true)
    (hdead : s.metroAlive = false ∨ s.displayAlive = false) :
    (supStep (supStep (supStep (supStep s e1) e2) e3) e4).phase
        = .monitoring ∧
    (supStep (supStep (supStep (supStep s e1) e2) e3) e4).metroAlive = true ∧
    (supStep (supStep (supStep (supStep s e1) e2) e3) e4).displayAlive
        = true ∧
    (supStep (supStep (supStep (supStep s e1) e2) e3) e4).elapsed
        ≤ s.elapsed + 15 ∧
    SupEvent.terminated .metro
        ∈ (supStep (supStep (supStep (supStep s e1) e2) e3) e4).events ∧
    SupEvent.terminated .display
        ∈ (supStep (supStep (supStep (supStep s e1) e2) e3) e4).events ∧
    SupEvent.spawned .metro
        ∈ (supStep (supStep (supStep (supStep s e1) e2) e3) e4).events ∧
    SupEvent.spawned .display
        ∈ (supStep (supStep (supStep (supStep s e1) e2) e3) e4).events ∧
    (s.metroAlive = true → e1.metroExits = false →
      e2.metroTermResponsive = false →
      SupEvent.killed .metro
        ∈ (supStep (supStep (supStep (supStep s e1) e2) e3) e4).events) ∧
    (s.displayAlive = true → e1.displayExits = false →
      e2.displayTermResponsive = false →
      SupEvent.killed .display
        ∈ (supStep (supStep (supStep (supStep s e1) e2) e3) e4).events) := by
  obtain ⟨run, m0, d0, ph, el, evs⟩ := s
  simp only at hph hrun hdead ⊢
  subst hph
  subst hrun
  have hcond : (!(m0 && !e1.metroExits) || !(d0 && !e1.displayExits)) = true := by
    rcases hdead with hd | hd <;> subst hd <;> simp
  have h1 := supStep_monitor_to_cleaning m0 d0 el evs e1 hcond
  have h2 : supStep ⟨true, m0 && !e1.metroExits, d0 && !e1.displayExits,
      .cleaning, el, evs⟩ e2 =
      ⟨true, false, false, .restarting,
       el + (cleanupProc (m0 && !e1.metroExits) e2.metroTermResponsive
               .metro).2
          + (cleanupProc (d0 && !e1.displayExits) e2.displayTermResponsive
               .display).2,
       evs ++ (cleanupProc (m0 && !e1.metroExits) e2.metroTermResponsive
                 .metro).1
           ++ (cleanupProc (d0 && !e1.displayExits) e2.displayTermResponsive
                 .display).1⟩ := rfl
  have h3 : ∀ E V, supStep ⟨true, false, false, .restarting, E, V⟩ e3 =
      ⟨true, false, false, .spawning, E + 5, V⟩ := fun E V => rfl
  have h4 : ∀ E V, supStep ⟨true, false, false, .spawning, E, V⟩ e4 =
      ⟨true, true, true, .monitoring, E,
       V ++ [.spawned .display, .spawned .metro]⟩ := fun E V => rfl
  rw [h1, h2, h3, h4]
  have hm5 := cleanupProc_delay_le (m0 && !e1.metroExits)
    e2.metroTermResponsive .metro
  have hd5 := cleanupProc_delay_le (d0 && !e1.displayExits)
    e2.displayTermResponsive .display
  refine ⟨rfl, rfl, rfl, by simp only; omega, ?_, ?_, ?_, ?_, ?_, ?_⟩
  · exact List.mem_append.mpr (Or.inl (List.mem_append.mpr (Or.inl
      (List.mem_append.mpr (Or.inr (cleanupProc_term_mem _ _ _))))))
  · exact List.mem_append.mpr (Or.inl (List.mem_append.mpr (Or.inr
      (cleanupProc_term_mem _ _ _))))
  · exact List.mem_append.mpr (Or.inr (by decide))
  · exact List.mem_append.mpr (Or.inr (by decide))
  · intro hm he hr
    subst hm
    rw [he]
    exact List.mem_append.mpr (Or.inl (List.mem_append.mpr (Or.inl
      (List.mem_append.mpr (Or.inr (cleanupProc_kill_mem _ _ hr))))))
  · intro hd he hr
    subst hd
    rw [he]
    exact List.mem_append.mpr (Or.inl (List.mem_append.mpr (Or.inr
      (cleanupProc_kill_mem _ _ hr))))

/-- Witness for C9: the metro child has just died, the display child is
alive but ignores `terminate()`. -/
theorem claim_C9_witness :
    (supStep (supStep (supStep (supStep
        ⟨true, false, true, .monitoring, 0, []⟩
        ⟨false, false, false, false⟩) ⟨false, false, false, false⟩)
        ⟨false, false, false, false⟩) ⟨false, false, false, false⟩).phase
        = .monitoring ∧
    (supStep (supStep (supStep (supStep
        ⟨true, false, true, .monitoring, 0, []⟩
        ⟨false, false, false, false⟩) ⟨false, false, false, false⟩)
        ⟨false, false, false, false⟩) ⟨false, false, false, false⟩).metroAlive
        = true ∧
    (supStep (supStep (supStep (supStep
        ⟨true, false, true, .monitoring, 0, []⟩
        ⟨false, false, false, false⟩) ⟨false, false, false, false⟩)
        ⟨false, false, false, false⟩)
        ⟨false, false, false, false⟩).displayAlive = true ∧
    (supStep (supStep (supStep (supStep
        ⟨true, false, true, .monitoring, 0, []⟩
        ⟨false, false, false, false⟩) ⟨false, false, false, false⟩)
        ⟨false, false, false, false⟩) ⟨false, false, false, false⟩).elapsed
        ≤ (⟨true, false, true, .monitoring, 0, []⟩ : SupState).elapsed + 15 ∧
    SupEvent.terminated .metro ∈ (supStep (supStep (supStep (supStep
        ⟨true, false, true, .monitoring, 0, []⟩
        ⟨false, false, false, false⟩) ⟨false, false, false, false⟩)
        ⟨false, false, false, false⟩) ⟨false, false, false, false⟩).events ∧
    SupEvent.terminated .display ∈ (supStep (supStep (supStep (supStep
        ⟨true, false, true, .monitoring, 0, []⟩
        ⟨false, false, false, false⟩) ⟨false, false, false, false⟩)
        ⟨false, false, false, false⟩) ⟨false, false, false, false⟩).events ∧
    SupEvent.spawned .metro ∈ (supStep (supStep (supStep (supStep
        ⟨true, false, true, .monitoring, 0, []⟩
        ⟨false, false, false, false⟩) ⟨false, false, false, false⟩)
        ⟨false, false, false, false⟩) ⟨false, false, false, false⟩).events ∧
    SupEvent.spawned .display ∈ (supStep (supStep (supStep (supStep
        ⟨true, false, true, .monitoring, 0, []⟩
        ⟨false, false, false, false⟩) ⟨false, false, false, false⟩)
        ⟨false, false, false, false⟩) ⟨false, false, false, false⟩).events ∧
    SupEvent.killed .display ∈ (supStep (supStep (supStep (supStep
        ⟨true, false, true, .monitoring, 0, []⟩
        ⟨false, false, false, false⟩) ⟨false, false, false, false⟩)
        ⟨false, false, false, false⟩) ⟨false, false, false, false⟩).events := by
  have h := claim_C9 ⟨true, false, true, .monitoring, 0, []⟩
    ⟨false, false, false, false⟩ ⟨false, false, false, false⟩
    ⟨false, false, false, false⟩ ⟨false, false, false, false⟩
    rfl rfl (Or.inl rfl)
  exact ⟨h.1, h.2.1, h.2.2.1, h.2.2.2.1, h.2.2.2.2.1, h.2.2.2.2.2.1,
    h.2.2.2.2.2.2.1, h.2.2.2.2.2.2.2.1,
    h.2.2.2.2.2.2.2.2.2 rfl rfl rfl⟩

end MetroStatus
